import Mathlib

/-!
Verification of the Gawulo order-lifecycle core.

A shallow embedding of the order status state machine, the `Order.save`
persistence hook, the WebSocket broadcast fan-out and the connection
handshake of the Gawulo marketplace backend, together with proofs of the
specified properties.

Embedded source files:
* `orders/models.py` (`Order`, `OrderStatusHistory`, `RefundRequest`)
* `orders/serializers.py` (`OrderStatusUpdateSerializer.validate_current_status`)
* `orders/signals.py` (`broadcast_order_update` and the signal receivers)
* `orders/views.py` (`OrderStatusUpdateView`, `OrderCancelView`,
  `RefundRequestApproveView`)
* `orders/consumers.py` (`OrderConsumer.connect`)

Machine-level conventions: database rows become Lean structures, the
implicit database context of a `save` call (the previously stored row, the
uids used for order-uid generation, the wall clock) is passed explicitly,
and Python exceptions raised as DRF validation errors become `Except`
values carrying the error data the raised message names.
-/

/-- The `ORDER_STATUS` choices of `orders/models.py`. -/
inductive OrderStatus
  | Confirmed
  | Pending
  | Processing
  | Shipped
  | Delivered
  | Ready
  | PickedUp
  | Cancelled
  | Refunded
deriving DecidableEq, Repr, Fintype

/-- The stored string value of each status choice. -/
def OrderStatus.toStr : OrderStatus → String
  | .Confirmed => "Confirmed"
  | .Pending => "Pending"
  | .Processing => "Processing"
  | .Shipped => "Shipped"
  | .Delivered => "Delivered"
  | .Ready => "Ready"
  | .PickedUp => "PickedUp"
  | .Cancelled => "Cancelled"
  | .Refunded => "Refunded"

/-- The `DELIVERY_TYPE` choices of `orders/models.py`.  The field allows a
blank value in the database; `validate_current_status` coerces a blank
value to `delivery` (the delivery fallback in the source), and every other
code path only distinguishes `pickup` from everything else, so the
two-valued type captures the decision structure. -/
inductive DeliveryType
  | delivery
  | pickup
deriving DecidableEq, Repr, Fintype

def DeliveryType.toStr : DeliveryType → String
  | .delivery => "delivery"
  | .pickup => "pickup"

/-- A row of the `Order` table, with the fields the lifecycle logic reads
or writes.  Foreign keys are carried as ids; `created_at` / `updated_at`
are abstract clock readings. -/
structure Order where
  order_uid : String
  vendor_id : Nat
  customer_id : Nat
  total_amount : Int
  current_status : OrderStatus
  delivery_type : DeliveryType
  is_completed : Bool
  created_at : Nat
  updated_at : Nat
deriving DecidableEq, Repr

/-- A row of `OrderStatusHistory`: order reference, resulting status,
confirming user, immutable timestamp. -/
structure OrderStatusHistoryRow where
  order_uid : String
  status : OrderStatus
  confirmed_by_user : Nat
  timestamp : Nat
deriving DecidableEq, Repr

/-- The statuses that complete an order (`orders/models.py`,
`Order.save`: "Orders are completed when they are Delivered, PickedUp, or
Refunded"). -/
def completedStatuses : List OrderStatus := [.Delivered, .PickedUp, .Refunded]

/-- The `is_completed` value `Order.save` assigns for a given status. -/
def Order.computeCompleted (s : OrderStatus) : Bool := completedStatuses.contains s

/-- Sequence-number generation of `Order.save`: over the current day order uids
(the queryset `order_uid__startswith=date_str` minus the row itself), take
the numeric part after the dash where it parses (`int(...)` failures are
skipped, contributing nothing to the max), and use max + 1; an empty
queryset yields sequence 1, which coincides with max-over-empty + 1. -/
def generateOrderUid (dateStr : String) (todayUids : List String) : String :=
  let seqs := todayUids.map fun uid =>
    match (uid.splitOn "-").get? 1 with
    | some s => (s.toNat?).getD 0
    | none => 0
  let maxSeq := seqs.foldl max 0
  dateStr ++ "-" ++ toString (maxSeq + 1)

/-- Method `Order.save` of `orders/models.py`.  `original` is the row previously
stored under this primary key (`none` on creation); `todayUids` and
`dateStr` stand for the uid-generation queryset and the date string of the day;
`now` is the wall clock.  The method generates `order_uid` when unset,
recomputes `is_completed` from the status on every save, restores
`created_at` from the stored row on update (`auto_now_add` sets it on
insert), and `auto_now` refreshes `updated_at` on every save. -/
def Order.save (self : Order) (original : Option Order) (todayUids : List String)
    (dateStr : String) (now : Nat) : Order :=
  let uid := if self.order_uid = "" then generateOrderUid dateStr todayUids else self.order_uid
  let completed := Order.computeCompleted self.current_status
  let createdAt :=
    match original with
    | some orig => orig.created_at
    | none => now
  { self with
      order_uid := uid
      is_completed := completed
      created_at := createdAt
      updated_at := now }

/-- The pickup transition table of
`OrderStatusUpdateSerializer.validate_current_status`.  Statuses absent
from the Python dict fall to the `.get(current_status, [])` default. -/
def pickup_valid_transitions : OrderStatus → List OrderStatus
  | .Pending => [.Confirmed, .Cancelled]
  | .Confirmed => [.Processing, .Cancelled]
  | .Processing => [.Ready, .Cancelled]
  | .Ready => [.PickedUp, .Cancelled]
  | .PickedUp => []
  | .Cancelled => []
  | .Refunded => []
  | _ => []

/-- The delivery transition table of
`OrderStatusUpdateSerializer.validate_current_status`.  Statuses absent
from the Python dict fall to the `.get(current_status, [])` default. -/
def delivery_valid_transitions : OrderStatus → List OrderStatus
  | .Pending => [.Confirmed, .Cancelled]
  | .Confirmed => [.Processing, .Cancelled]
  | .Processing => [.Shipped, .Cancelled]
  | .Shipped => [.Delivered, .Cancelled]
  | .Delivered => []
  | .Cancelled => []
  | .Refunded => []
  | _ => []

/-- The table selected by delivery type (the pickup check in the source). -/
def valid_transitions (dt : DeliveryType) : OrderStatus → List OrderStatus :=
  match dt with
  | .pickup => pickup_valid_transitions
  | .delivery => delivery_valid_transitions

/-- The data carried by the `ValidationError` messages raised in
`validate_current_status`: either the refunded-order rejection, or the
invalid-transition rejection naming the current status, the requested
status, the delivery type and the allowed successor set. -/
inductive ValidationError
  | refundedImmutable
  | invalidTransition (current requested : OrderStatus) (dt : DeliveryType)
      (allowed : List OrderStatus)
deriving DecidableEq, Repr

/-- Rendering of the raised messages.  The refunded message is verbatim;
the invalid-transition message follows the Python f-string, with the
quote marks that the source places around the status names elided. -/
def ValidationError.message : ValidationError → String
  | .refundedImmutable =>
      "Cannot change the status of a refunded order. Refunds cannot be reversed."
  | .invalidTransition current requested dt allowed =>
      "Cannot transition from " ++ current.toStr ++ " to " ++ requested.toStr
        ++ " for " ++ dt.toStr ++ " orders. Valid next statuses: "
        ++ (if allowed.isEmpty then "none"
            else String.intercalate ", " (allowed.map OrderStatus.toStr)) ++ "."

/-- Which statuses an error message names (the invalid-transition message
names current, requested and the allowed set; the refunded message names
none of them). -/
def ValidationError.namedAllowed : ValidationError → Option (List OrderStatus)
  | .refundedImmutable => none
  | .invalidTransition _ _ _ allowed => some allowed

/-- Method `validate_current_status` of `OrderStatusUpdateSerializer` in
`orders/serializers.py` (the `self.instance` present case): a refunded
order rejects everything; otherwise the requested value must be in the
allowed successor set of the current status or equal to the current
status. -/
def validate_current_status (current : OrderStatus) (dt : DeliveryType)
    (value : OrderStatus) : Except ValidationError OrderStatus :=
  if current = .Refunded then
    .error .refundedImmutable
  else
    let allowed := valid_transitions dt current
    if value ∉ allowed ∧ value ≠ current then
      .error (.invalidTransition current value dt allowed)
    else
      .ok value

/-- A message handed to `channel_layer.group_send` in
`broadcast_order_update` (`orders/signals.py`): target group name, the
`type` discriminator, the serialized order (the `Order` row stands in for
`OrderSerializer(order).data`), and the wall-clock timestamp. -/
structure GroupMessage where
  group : String
  msg_type : String
  order : Order
  timestamp : Nat
deriving DecidableEq, Repr

/-- Group name vendor_(vendor id)_orders of the source. -/
def vendorGroupName (vendor_id : Nat) : String :=
  "vendor_" ++ toString vendor_id ++ "_orders"

/-- Group name customer_(customer id)_orders of the source. -/
def customerGroupName (customer_id : Nat) : String :=
  "customer_" ++ toString customer_id ++ "_orders"

/-- Function `broadcast_order_update` of `orders/signals.py`.  `channelLayer`
records whether `get_channel_layer()` returned a layer; with no layer the
function returns having sent nothing.  Otherwise it serializes the order
once and sends one message to the vendor group and one to the customer
group, both carrying the same order data and the same timestamp. -/
def broadcast_order_update (channelLayer : Bool) (order : Order)
    (message_type : String) (now : Nat) : List GroupMessage :=
  if !channelLayer then []
  else
    [ { group := vendorGroupName order.vendor_id, msg_type := message_type,
        order := order, timestamp := now },
      { group := customerGroupName order.customer_id, msg_type := message_type,
        order := order, timestamp := now } ]

/-- The signal receivers of `orders/signals.py` fired by one `save` of an
existing `Order` row: `order_status_changed` (`pre_save`, broadcasting when
the stored status differs from the incoming one) followed by
`order_created_or_updated` (`post_save`, broadcasting `order_update` on
every non-create save).  The `pre_save` receiver fires inside
`super().save()` after `Order.save` has recomputed the derived fields, so
both receivers see the saved field values. -/
def orderUpdateSignals (channelLayer : Bool) (old : Order) (saved : Order)
    (now : Nat) : List GroupMessage :=
  (if old.current_status ≠ saved.current_status then
    broadcast_order_update channelLayer saved "order_update" now
  else []) ++ broadcast_order_update channelLayer saved "order_update" now

/-- Receiver `order_status_history_created` of `orders/signals.py`: creating a
status-history row broadcasts an `order_update` for its order. -/
def historyCreatedSignal (channelLayer : Bool) (order : Order) (now : Nat) :
    List GroupMessage :=
  broadcast_order_update channelLayer order "order_update" now

/-- The `OrderStatusUpdateView` update path of `orders/views.py`: the
serializer validates the requested status against the instance; on
rejection DRF returns the validation error and nothing is saved; on
success `serializer.save()` stores the new status through `Order.save`
(firing the order signals) and `perform_update` appends an
`OrderStatusHistory` row for the resulting status, confirmed by the
requesting user (firing the history signal).  Returns the HTTP outcome
paired with the broadcasts emitted. -/
def performStatusUpdate (o : Order) (requested : OrderStatus) (userId : Nat)
    (channelLayer : Bool) (todayUids : List String) (dateStr : String) (now : Nat) :
    Except ValidationError (Order × OrderStatusHistoryRow) × List GroupMessage :=
  match validate_current_status o.current_status o.delivery_type requested with
  | .error e => (.error e, [])
  | .ok v =>
      let saved := Order.save { o with current_status := v } (some o) todayUids dateStr now
      let hist : OrderStatusHistoryRow :=
        { order_uid := saved.order_uid, status := saved.current_status,
          confirmed_by_user := userId, timestamp := now }
      (.ok (saved, hist),
        orderUpdateSignals channelLayer o saved now
          ++ historyCreatedSignal channelLayer saved now)

/-- The rejection outcomes of `OrderCancelView.post` (`orders/views.py`). -/
inductive CancelError
  | noPermission
  | cannotCancelStatus (s : OrderStatus)
  | customerRestriction (s : OrderStatus)
deriving DecidableEq, Repr

/-- Endpoint `OrderCancelView.post` of `orders/views.py`.  `is_customer` /
`is_vendor` record whether the caller owns the order as its customer /
vendor, `is_admin` is `user.is_staff`.  Without any of the three the
request is forbidden; a Delivered, Cancelled or Refunded order cannot be
cancelled; a customer caller may only cancel Confirmed or Pending orders;
otherwise the status is set to `Cancelled` directly (no transition
validation), saved, and a history row is appended. -/
def OrderCancelView.post (is_customer is_vendor is_admin : Bool) (order : Order)
    (userId : Nat) (todayUids : List String) (dateStr : String) (now : Nat) :
    Except CancelError (Order × OrderStatusHistoryRow) :=
  if !(is_customer || is_vendor || is_admin) then
    .error .noPermission
  else if order.current_status ∈ [OrderStatus.Delivered, .Cancelled, .Refunded] then
    .error (.cannotCancelStatus order.current_status)
  else if is_customer ∧ order.current_status ∉ [OrderStatus.Confirmed, .Pending] then
    .error (.customerRestriction order.current_status)
  else
    let saved := Order.save { order with current_status := .Cancelled }
      (some order) todayUids dateStr now
    .ok (saved,
      { order_uid := saved.order_uid, status := .Cancelled,
        confirmed_by_user := userId, timestamp := now })

/-- The `STATUS_CHOICES` of `RefundRequest` (`orders/models.py`). -/
inductive RefundStatus
  | pending
  | approved
  | denied
deriving DecidableEq, Repr

/-- A row of the `RefundRequest` table (the fields `perform_update`
touches). -/
structure RefundRequestRec where
  status : RefundStatus
  processed_by : Option Nat
  processed_at : Option Nat
deriving DecidableEq, Repr

/-- The rejection outcomes of `RefundRequestApproveView.perform_update`. -/
inductive RefundApproveError
  | notPending
  | alreadyRefunded
deriving DecidableEq, Repr

/-- Endpoint `RefundRequestApproveView.perform_update` of `orders/views.py`: only a
pending request whose order is not already Refunded can be approved; on
approval the request is marked approved, the status of the order is set to
`Refunded` directly (no transition validation) and saved, and a
`Refunded` history row is appended. -/
def RefundRequestApproveView.perform_update (req : RefundRequestRec) (order : Order)
    (userId : Nat) (todayUids : List String) (dateStr : String) (now : Nat) :
    Except RefundApproveError (RefundRequestRec × Order × OrderStatusHistoryRow) :=
  if req.status ≠ .pending then
    .error .notPending
  else if order.current_status = .Refunded then
    .error .alreadyRefunded
  else
    let req2 : RefundRequestRec :=
      { req with
          status := .approved
          processed_by := some userId
          processed_at := some now }
    let saved := Order.save { order with current_status := .Refunded }
      (some order) todayUids dateStr now
    .ok (req2, saved,
      { order_uid := saved.order_uid, status := .Refunded,
        confirmed_by_user := userId, timestamp := now })

/-- An observable action of `OrderConsumer.connect`
(`orders/consumers.py`), in the order it is performed:
`channel_layer.group_add`, `self.accept()`, or `self.close(code)`. -/
inductive WsEvent
  | groupAdd (group : String)
  | accept
  | close (code : Nat)
deriving DecidableEq, Repr

/-- The environment a connection attempt runs against: the token parsed
from the query string, token authentication (`authenticate_token`,
returning the user id or `none` on any failure), the vendor/customer role
probes, the profile lookups, and channel-layer availability. -/
structure ConnectEnv where
  queryToken : Option String
  authenticate : String → Option Nat
  isVendor : Nat → Bool
  isCustomer : Nat → Bool
  getVendor : Nat → Option Nat
  getCustomer : Nat → Option Nat
  channelLayer : Bool

/-- Method `OrderConsumer.connect` of `orders/consumers.py` as the sequence of
observable actions it performs.  No token closes with 4001; failed
authentication closes with 4003; a user who is neither vendor nor customer
closes with 4004; a missing vendor / customer profile closes with 4005 /
4006; a missing channel layer closes with 4008; otherwise the connection
joins its single group and only then accepts.  The vendor branch is tried
first, mirroring `if self.is_vendor`. -/
def OrderConsumer.connect (env : ConnectEnv) : List WsEvent :=
  match env.queryToken with
  | none => [.close 4001]
  | some token =>
    match env.authenticate token with
    | none => [.close 4003]
    | some userId =>
      let isV := env.isVendor userId
      let isC := env.isCustomer userId
      if !(isV || isC) then [.close 4004]
      else if isV then
        match env.getVendor userId with
        | some vendorId =>
            if !env.channelLayer then [.close 4008]
            else [.groupAdd (vendorGroupName vendorId), .accept]
        | none => [.close 4005]
      else
        match env.getCustomer userId with
        | some customerId =>
            if !env.channelLayer then [.close 4008]
            else [.groupAdd (customerGroupName customerId), .accept]
        | none => [.close 4006]

/-! Concrete fixtures used in witnesses and counterexamples. -/

/-- A confirmed delivery order, as stored after checkout. -/
def sampleConfirmedOrder : Order :=
  { order_uid := "20250101-1", vendor_id := 7, customer_id := 9,
    total_amount := 100, current_status := .Confirmed, delivery_type := .delivery,
    is_completed := false, created_at := 1, updated_at := 3 }

/-- A refunded delivery order. -/
def sampleRefundedOrder : Order :=
  { sampleConfirmedOrder with current_status := .Refunded, is_completed := true }

/-- A picked-up pickup order. -/
def samplePickedUpOrder : Order :=
  { sampleConfirmedOrder with
      delivery_type := .pickup
      current_status := .PickedUp
      is_completed := true }

/-- A cancelled order. -/
def sampleCancelledOrder : Order :=
  { sampleConfirmedOrder with current_status := .Cancelled }

/-- A pending refund request. -/
def samplePendingRefund : RefundRequestRec :=
  { status := .pending, processed_by := none, processed_at := none }

/-! Helper lemmas. -/

/-- Every run of `connect` either closes immediately, or joins exactly one
group and then accepts. -/
lemma connect_closes_or_joins_then_accepts (env : ConnectEnv) :
    (∃ c, OrderConsumer.connect env = [WsEvent.close c])
    ∨ (∃ g, OrderConsumer.connect env = [WsEvent.groupAdd g, WsEvent.accept]) := by
  unfold OrderConsumer.connect
  rcases env.queryToken with _ | token
  · exact Or.inl ⟨4001, rfl⟩
  · simp only
    rcases env.authenticate token with _ | userId
    · exact Or.inl ⟨4003, rfl⟩
    · simp only
      by_cases hv : env.isVendor userId
      <;> by_cases hc : env.isCustomer userId
      <;> simp only [hv, hc]
      <;> first
        | exact Or.inl ⟨4004, rfl⟩
        | (rcases hgv : env.getVendor userId with _ | vendorId
           <;> rcases hgc : env.getCustomer userId with _ | customerId
           <;> by_cases hl : env.channelLayer
           <;> simp [hgv, hgc, hl])

/-! Claim theorems. -/

/-- C1: for every current status, the pickup allowed-successor set never
contains `Shipped` or `Delivered` and the delivery allowed-successor set
never contains `Ready` or `PickedUp`; a Confirmed pickup order requesting
`Shipped` is rejected with an error naming `Processing, Cancelled` as the
valid successors. -/
theorem workflow_tables_never_cross (current : OrderStatus) :
    (OrderStatus.Shipped ∉ valid_transitions .pickup current
      ∧ OrderStatus.Delivered ∉ valid_transitions .pickup current
      ∧ OrderStatus.Ready ∉ valid_transitions .delivery current
      ∧ OrderStatus.PickedUp ∉ valid_transitions .delivery current)
  ∧ validate_current_status .Confirmed .pickup .Shipped
      = .error (.invalidTransition .Confirmed .Shipped .pickup [.Processing, .Cancelled])
  ∧ String.intercalate ", "
      ((valid_transitions .pickup .Confirmed).map OrderStatus.toStr)
      = "Processing, Cancelled" := by
  refine ⟨?_, rfl, rfl⟩
  cases current <;> decide

/-- C2: a Refunded order rejects every status-update request, whatever the
delivery type and the requested value (the current status included), with
the refunds-cannot-be-reversed reason. -/
theorem refunded_order_rejects_every_request :
    (∀ (dt : DeliveryType) (requested : OrderStatus),
        validate_current_status .Refunded dt requested = .error .refundedImmutable)
  ∧ ValidationError.message .refundedImmutable
      = "Cannot change the status of a refunded order. Refunds cannot be reversed." :=
  ⟨fun _ _ => rfl, rfl⟩

/-- C3 counterexample: requesting the current status is not a success for
every order — a Refunded order rejects even the request for `Refunded`
itself — and a successful idempotent re-submission does alter a timestamp:
re-requesting `Confirmed` at time 5 moves `updated_at` from 3 to 5. -/
theorem idempotent_resubmission_counterexample :
    validate_current_status .Refunded .delivery .Refunded = .error .refundedImmutable
  ∧ (performStatusUpdate sampleConfirmedOrder .Confirmed 2 true [] "20250101" 5).1.map
      (fun r => r.1.updated_at) = .ok 5
  ∧ sampleConfirmedOrder.updated_at = 3 := by
  refine ⟨rfl, rfl, rfl⟩

/-- C3 (amended): for every order whose current status is not Refunded and
whose completion flag is consistent with its status, requesting the
current status again succeeds; the saved order keeps its status,
`is_completed` and `created_at`, while `updated_at` is refreshed to the
save time as on any save. -/
theorem idempotent_resubmission_succeeds (o : Order) (userId : Nat)
    (channelLayer : Bool) (todayUids : List String) (dateStr : String) (now : Nat)
    (hnr : o.current_status ≠ .Refunded)
    (hcons : o.is_completed = Order.computeCompleted o.current_status) :
    ∃ saved hist,
      (performStatusUpdate o o.current_status userId channelLayer todayUids dateStr now).1
        = .ok (saved, hist)
      ∧ saved.current_status = o.current_status
      ∧ saved.is_completed = o.is_completed
      ∧ saved.created_at = o.created_at
      ∧ saved.updated_at = now := by
  have hval : validate_current_status o.current_status o.delivery_type o.current_status
      = .ok o.current_status := by
    simp [validate_current_status, hnr]
  simp only [performStatusUpdate, hval]
  exact ⟨_, _, rfl, rfl, hcons.symm, rfl, rfl⟩

/-- C3 witness. -/
theorem idempotent_resubmission_succeeds_witness :
    ∃ saved hist,
      (performStatusUpdate sampleConfirmedOrder sampleConfirmedOrder.current_status
          2 true [] "20250101" 5).1 = .ok (saved, hist)
      ∧ saved.current_status = sampleConfirmedOrder.current_status
      ∧ saved.is_completed = sampleConfirmedOrder.is_completed
      ∧ saved.created_at = sampleConfirmedOrder.created_at
      ∧ saved.updated_at = 5 :=
  idempotent_resubmission_succeeds sampleConfirmedOrder 2 true [] "20250101" 5
    (by decide) (by decide)

/-- C4: every save recomputes `is_completed` from the status, the flag is
true exactly on `{Delivered, PickedUp, Refunded}`, and `Ready` and
`Cancelled` in particular leave it false. -/
theorem is_completed_iff_terminal_status :
    (∀ (o : Order) (original : Option Order) (todayUids : List String)
        (dateStr : String) (now : Nat),
        (Order.save o original todayUids dateStr now).is_completed
          = Order.computeCompleted o.current_status)
  ∧ (∀ s : OrderStatus, Order.computeCompleted s = true ↔ s ∈ completedStatuses)
  ∧ Order.computeCompleted .Ready = false
  ∧ Order.computeCompleted .Cancelled = false := by
  refine ⟨fun o original todayUids dateStr now => rfl, fun s => ?_, rfl, rfl⟩
  cases s <;> decide

/-- C5: a validated, committed status change broadcasts to both the
vendor group and the customer group derived from the ids of the order, with an
identical payload (same serialized order, same timestamp) in both
messages. -/
theorem status_change_broadcasts_both_groups (o : Order) (requested : OrderStatus)
    (userId : Nat) (todayUids : List String) (dateStr : String) (now : Nat)
    (hok : validate_current_status o.current_status o.delivery_type requested
      = .ok requested)
    (hch : o.current_status ≠ requested) :
    ∃ payload ts,
      ({ group := vendorGroupName o.vendor_id, msg_type := "order_update",
         order := payload, timestamp := ts } : GroupMessage)
        ∈ (performStatusUpdate o requested userId true todayUids dateStr now).2
    ∧ ({ group := customerGroupName o.customer_id, msg_type := "order_update",
         order := payload, timestamp := ts } : GroupMessage)
        ∈ (performStatusUpdate o requested userId true todayUids dateStr now).2 := by
  refine ⟨Order.save { o with current_status := requested } (some o) todayUids dateStr now,
    now, ?_, ?_⟩ <;>
  · simp only [performStatusUpdate, hok]
    simp [orderUpdateSignals, historyCreatedSignal, broadcast_order_update, Order.save, hch]

/-- C5 witness. -/
theorem status_change_broadcasts_both_groups_witness :
    ∃ payload ts,
      ({ group := vendorGroupName sampleConfirmedOrder.vendor_id,
         msg_type := "order_update", order := payload, timestamp := ts } : GroupMessage)
        ∈ (performStatusUpdate sampleConfirmedOrder .Processing 2 true [] "20250101" 5).2
    ∧ ({ group := customerGroupName sampleConfirmedOrder.customer_id,
         msg_type := "order_update", order := payload, timestamp := ts } : GroupMessage)
        ∈ (performStatusUpdate sampleConfirmedOrder .Processing 2 true [] "20250101" 5).2 :=
  status_change_broadcasts_both_groups sampleConfirmedOrder .Processing 2 [] "20250101" 5
    rfl (by decide)

/-- C6: with no channel layer the broadcaster sends nothing and returns
normally, and the HTTP outcome of a status update (the saved order, the
history row, or the validation error) is the same whether or not the
channel layer is available. -/
theorem channel_layer_unavailable_is_silent :
    (∀ (order : Order) (message_type : String) (now : Nat),
        broadcast_order_update false order message_type now = [])
  ∧ (∀ (o : Order) (requested : OrderStatus) (userId : Nat)
        (todayUids : List String) (dateStr : String) (now : Nat),
        (performStatusUpdate o requested userId false todayUids dateStr now).2 = []
      ∧ (performStatusUpdate o requested userId false todayUids dateStr now).1
          = (performStatusUpdate o requested userId true todayUids dateStr now).1) := by
  refine ⟨fun order message_type now => rfl,
    fun o requested userId todayUids dateStr now => ?_⟩
  unfold performStatusUpdate
  cases validate_current_status o.current_status o.delivery_type requested <;>
    simp [orderUpdateSignals, historyCreatedSignal, broadcast_order_update]

/-- C7: a connection with no token closes with 4001 and a connection whose
token fails authentication closes with 4003, in both cases without any
group registration and without acceptance; in every run, acceptance
happens only after a successful group registration. -/
theorem invalid_token_never_joins (env : ConnectEnv) :
    (env.queryToken = none → OrderConsumer.connect env = [WsEvent.close 4001])
  ∧ (∀ t, env.queryToken = some t → env.authenticate t = none →
      OrderConsumer.connect env = [WsEvent.close 4003])
  ∧ ((env.queryToken = none
        ∨ ∃ t, env.queryToken = some t ∧ env.authenticate t = none) →
      (∀ g, WsEvent.groupAdd g ∉ OrderConsumer.connect env)
      ∧ WsEvent.accept ∉ OrderConsumer.connect env)
  ∧ (WsEvent.accept ∈ OrderConsumer.connect env →
      ∃ g, OrderConsumer.connect env = [WsEvent.groupAdd g, WsEvent.accept]) := by
  have hclose1 : env.queryToken = none →
      OrderConsumer.connect env = [WsEvent.close 4001] := by
    intro h
    simp [OrderConsumer.connect, h]
  have hclose3 : ∀ t, env.queryToken = some t → env.authenticate t = none →
      OrderConsumer.connect env = [WsEvent.close 4003] := by
    intro t ht ha
    simp [OrderConsumer.connect, ht, ha]
  refine ⟨hclose1, hclose3, ?_, ?_⟩
  · rintro (h | ⟨t, ht, ha⟩)
    · rw [hclose1 h]
      exact ⟨fun g => by simp, by simp⟩
    · rw [hclose3 t ht ha]
      exact ⟨fun g => by simp, by simp⟩
  · intro hacc
    rcases connect_closes_or_joins_then_accepts env with ⟨c, hc⟩ | ⟨g, hg⟩
    · rw [hc] at hacc
      simp at hacc
    · exact ⟨g, hg⟩

/-- A connection attempt carrying no token at all. -/
def sampleBadTokenEnv : ConnectEnv :=
  { queryToken := none, authenticate := fun _ => none, isVendor := fun _ => false,
    isCustomer := fun _ => false, getVendor := fun _ => none,
    getCustomer := fun _ => none, channelLayer := true }

/-- C7 witness. -/
theorem invalid_token_never_joins_witness :
    OrderConsumer.connect sampleBadTokenEnv = [WsEvent.close 4001]
  ∧ WsEvent.accept ∉ OrderConsumer.connect sampleBadTokenEnv :=
  ⟨(invalid_token_never_joins sampleBadTokenEnv).1 rfl,
   ((invalid_token_never_joins sampleBadTokenEnv).2.2.1 (Or.inl rfl)).2⟩

/-- C8 counterexample: not every rejection names the current status, the
requested status and the allowed set — the rejection of an update to a
Refunded order carries only the refunds-cannot-be-reversed reason and
names no allowed successor set. -/
theorem rejection_error_naming_counterexample :
    performStatusUpdate sampleRefundedOrder .Cancelled 2 true [] "20250101" 5
      = (.error .refundedImmutable, [])
  ∧ ValidationError.namedAllowed .refundedImmutable = none :=
  ⟨rfl, rfl⟩

/-- C8 (amended): every rejection by the transition validator surfaces the
validation error to the caller and leaves the order untouched — no order
is saved, no history row is created and no broadcast is emitted; a
rejection of a non-Refunded order names the current status, the requested
status and the allowed successor set, while the rejection of a Refunded
order carries the refunds-cannot-be-reversed reason instead. -/
theorem rejected_update_leaves_order_untouched (o : Order) (requested : OrderStatus)
    (userId : Nat) (channelLayer : Bool) (todayUids : List String) (dateStr : String)
    (now : Nat) (e : ValidationError)
    (herr : validate_current_status o.current_status o.delivery_type requested
      = .error e) :
    performStatusUpdate o requested userId channelLayer todayUids dateStr now
      = (.error e, [])
  ∧ (o.current_status ≠ .Refunded →
      e = .invalidTransition o.current_status requested o.delivery_type
        (valid_transitions o.delivery_type o.current_status)
      ∧ ValidationError.namedAllowed e
        = some (valid_transitions o.delivery_type o.current_status))
  ∧ (o.current_status = .Refunded → e = .refundedImmutable) := by
  refine ⟨by simp [performStatusUpdate, herr], ?_, ?_⟩
  · intro hnr
    by_cases hcond : requested ∉ valid_transitions o.delivery_type o.current_status
        ∧ requested ≠ o.current_status
    · simp only [validate_current_status, if_neg hnr, if_pos hcond,
        Except.error.injEq] at herr
      subst herr
      exact ⟨rfl, rfl⟩
    · simp [validate_current_status, hnr, hcond] at herr
  · intro hr
    simp only [validate_current_status, if_pos hr, Except.error.injEq] at herr
    subst herr
    rfl

/-- C8 witness. -/
theorem rejected_update_leaves_order_untouched_witness :
    performStatusUpdate sampleConfirmedOrder .Shipped 2 true [] "20250101" 5
      = (.error (.invalidTransition .Confirmed .Shipped .delivery
          [.Processing, .Cancelled]), [])
  ∧ (sampleConfirmedOrder.current_status ≠ .Refunded →
      ValidationError.invalidTransition .Confirmed .Shipped .delivery
          [.Processing, .Cancelled]
        = .invalidTransition sampleConfirmedOrder.current_status .Shipped
            sampleConfirmedOrder.delivery_type
            (valid_transitions sampleConfirmedOrder.delivery_type
              sampleConfirmedOrder.current_status)
      ∧ ValidationError.namedAllowed
          (.invalidTransition .Confirmed .Shipped .delivery [.Processing, .Cancelled])
        = some (valid_transitions sampleConfirmedOrder.delivery_type
            sampleConfirmedOrder.current_status))
  ∧ (sampleConfirmedOrder.current_status = .Refunded →
      ValidationError.invalidTransition .Confirmed .Shipped .delivery
          [.Processing, .Cancelled] = .refundedImmutable) :=
  rejected_update_leaves_order_untouched sampleConfirmedOrder .Shipped 2 true []
    "20250101" 5
    (.invalidTransition .Confirmed .Shipped .delivery [.Processing, .Cancelled]) rfl

/-- C9: for a staff or vendor caller (one who does not own the order as
its customer), the cancel endpoint rejects exactly the orders whose status is
Delivered, Cancelled or Refunded; a PickedUp, Ready, Shipped or Processing
order is cancelled and a Cancelled history row appended, even though the
transition validator rejects PickedUp → Cancelled as terminal. -/
theorem cancel_rejects_iff_terminal (order : Order) (userId : Nat)
    (todayUids : List String) (dateStr : String) (now : Nat)
    (is_vendor is_admin : Bool) (hrole : (is_vendor || is_admin) = true) :
    ((∃ ce, OrderCancelView.post false is_vendor is_admin order userId todayUids
        dateStr now = .error ce)
      ↔ order.current_status ∈ [OrderStatus.Delivered, .Cancelled, .Refunded])
  ∧ (order.current_status ∈ [OrderStatus.PickedUp, .Ready, .Shipped, .Processing] →
      ∃ saved hist,
        OrderCancelView.post false is_vendor is_admin order userId todayUids
          dateStr now = .ok (saved, hist)
        ∧ saved.current_status = .Cancelled ∧ hist.status = .Cancelled)
  ∧ (∀ dt : DeliveryType,
      validate_current_status .PickedUp dt .Cancelled
        = .error (.invalidTransition .PickedUp .Cancelled dt [])) := by
  by_cases hperm : is_vendor = false ∧ is_admin = false
  · exact absurd hrole (by simp [hperm.1, hperm.2])
  refine ⟨⟨?_, ?_⟩, ?_, ?_⟩
  · rintro ⟨ce, hce⟩
    by_contra hmem
    simp [OrderCancelView.post, hperm, hmem] at hce
  · intro hmem
    exact ⟨.cannotCancelStatus order.current_status,
      by simp [OrderCancelView.post, hperm, hmem]⟩
  · intro hmem4
    have hmem3 : order.current_status ∉ [OrderStatus.Delivered, .Cancelled, .Refunded] := by
      simp only [List.mem_cons, List.not_mem_nil, or_false] at hmem4 ⊢
      rcases hmem4 with h | h | h | h <;> rw [h] <;> simp
    refine ⟨Order.save { order with current_status := .Cancelled } (some order)
        todayUids dateStr now,
      { order_uid := (Order.save { order with current_status := .Cancelled }
          (some order) todayUids dateStr now).order_uid,
        status := .Cancelled, confirmed_by_user := userId, timestamp := now },
      ?_, rfl, rfl⟩
    simp [OrderCancelView.post, hperm, hmem3]
  · intro dt
    cases dt <;> rfl

/-- C9 witness. -/
theorem cancel_rejects_iff_terminal_witness :
    ∃ saved hist,
      OrderCancelView.post false true false samplePickedUpOrder 2 [] "20250101" 5
        = .ok (saved, hist)
      ∧ saved.current_status = .Cancelled ∧ hist.status = .Cancelled :=
  (cancel_rejects_iff_terminal samplePickedUpOrder 2 [] "20250101" 5 true false
    rfl).2.1 (by decide)

/-- C10: approving a pending refund request for an order not already
Refunded succeeds for every prior status, sets the status of the order to
Refunded (completing it) and appends a Refunded history row — although no
transition table lists Refunded as a successor of any status. -/
theorem refund_approval_forces_refunded (req : RefundRequestRec) (order : Order)
    (userId : Nat) (todayUids : List String) (dateStr : String) (now : Nat)
    (hp : req.status = .pending) (hnr : order.current_status ≠ .Refunded) :
    (∃ req2 saved hist,
      RefundRequestApproveView.perform_update req order userId todayUids dateStr now
        = .ok (req2, saved, hist)
      ∧ saved.current_status = .Refunded
      ∧ saved.is_completed = true
      ∧ hist.status = .Refunded
      ∧ req2.status = .approved)
  ∧ (∀ (dt : DeliveryType) (s : OrderStatus),
      OrderStatus.Refunded ∉ valid_transitions dt s) := by
  constructor
  · refine ⟨{ status := .approved, processed_by := some userId, processed_at := some now },
      Order.save { order with current_status := .Refunded } (some order)
        todayUids dateStr now,
      { order_uid := (Order.save { order with current_status := .Refunded }
          (some order) todayUids dateStr now).order_uid,
        status := .Refunded, confirmed_by_user := userId, timestamp := now },
      ?_, rfl, rfl, rfl, rfl⟩
    simp [RefundRequestApproveView.perform_update, hp, hnr]
  · intro dt s
    cases dt <;> cases s <;> decide

/-- C10 witness. -/
theorem refund_approval_forces_refunded_witness :
    ∃ req2 saved hist,
      RefundRequestApproveView.perform_update samplePendingRefund sampleCancelledOrder
        2 [] "20250101" 5 = .ok (req2, saved, hist)
      ∧ saved.current_status = .Refunded
      ∧ saved.is_completed = true
      ∧ hist.status = .Refunded
      ∧ req2.status = .approved :=
  (refund_approval_forces_refunded samplePendingRefund sampleCancelledOrder 2 []
    "20250101" 5 rfl (by decide)).1
